import Mathlib

/-!
Shallow embedding of `src/Project/Source/SceneManager.cpp` (class `SceneManager`).

The scene manager keeps two small registries (textures by tag, materials by
tag), composes model matrices from scale/rotation/translation parameters, and
issues a fixed sequence of uniform-setting and mesh-draw calls against an
external shading backend.

Modelling conventions:
* the texture registry (`m_textureIDs` array prefix of length
  `m_loadedTextures`) is a list of `TEXTURE_ID` entries in insertion order;
* the material registry (`m_objectMaterials` vector) is a list of
  `OBJECT_MATERIAL` entries in insertion order;
* the shading backend pointer `m_pShaderManager` is a flag
  `shaderPresent : Bool` (`true` = non-null); each member function is modelled
  as the list of backend calls it performs through that pointer, so a call
  performed while `shaderPresent = false` is a call made through a null
  pointer;
* GLM float scalars and vectors are modelled as exact reals (`ℝ`, triples for
  `vec3`), and `glm::mat4` as `Matrix (Fin 4) (Fin 4) ℝ`; material colours and
  shininess, which are only ever literal constants, are kept rational (`ℚ`)
  so that lookups stay decidable, and are cast to `ℝ` at the backend boundary;
* C++ `std::string::compare(tag) == 0` is string equality;
* C++ `bool` passed to `setIntValue` is modelled by its integer conversion
  (`true ↦ 1`, `false ↦ 0`).
-/

/-- An entry of the texture registry: `struct TEXTURE_ID { ID; tag; }`.
`ID` is the OpenGL handle returned by `glGenTextures`. -/
structure TEXTURE_ID where
  tag : String
  ID : Int
deriving DecidableEq, Repr

/-- An entry of the material registry: `struct OBJECT_MATERIAL` with a
diffuse colour, a specular colour, a shininess exponent and a tag. -/
structure OBJECT_MATERIAL where
  diffuseColor : ℚ × ℚ × ℚ
  specularColor : ℚ × ℚ × ℚ
  shininess : ℚ
  tag : String
deriving DecidableEq, Repr

/-- A decoded image as returned by `stbi_load`: dimensions and channel count. -/
structure DecodedImage where
  width : Int
  height : Int
  colorChannels : Int
deriving DecidableEq, Repr

/-- Embeds `SceneManager::CreateGLTexture(filename, tag)`.

`image` is the result of `stbi_load` (`none` = decode failure), `textureID`
the handle produced by `glGenTextures`, and `registry` the current texture
registry (array prefix `m_textureIDs[0..m_loadedTextures)`).  Returns the
C++ return value together with the registry after the call: on success the
entry `{ID := textureID, tag := tag}` is appended at slot `m_loadedTextures`
and the count is incremented; on decode failure or an unsupported channel
count (anything other than 3 or 4) the function returns `false` before the
append, leaving the registry unchanged. -/
def CreateGLTexture (image : Option DecodedImage) (textureID : Int)
    (tag : String) (registry : List TEXTURE_ID) : Bool × List TEXTURE_ID :=
  match image with
  | some img =>
    -- RGB upload
    if img.colorChannels = 3 then
      (true, registry ++ [{ tag := tag, ID := textureID }])
    -- RGBA upload
    else if img.colorChannels = 4 then
      (true, registry ++ [{ tag := tag, ID := textureID }])
    -- `"Not implemented to handle image with N channels"`: early return,
    -- before the registry append
    else
      (false, registry)
  | none => (false, registry)

/-- Embeds `SceneManager::FindTextureID(tag)`: linear scan of the registry in
insertion order; returns the first matching entry's `ID`, or the sentinel
`-1` when no entry matches (in particular on an empty registry). -/
def FindTextureID (tag : String) : List TEXTURE_ID → Int
  | [] => -1
  | e :: rest => if e.tag = tag then e.ID else FindTextureID tag rest

/-- Auxiliary loop of `FindTextureSlot`, carrying the running `index`. -/
def findTextureSlotAux (tag : String) : List TEXTURE_ID → Int → Int
  | [], _ => -1
  | e :: rest, index =>
    if e.tag = tag then index else findTextureSlotAux tag rest (index + 1)

/-- Embeds `SceneManager::FindTextureSlot(tag)`: linear scan of the registry in
insertion order; returns the index of the first matching entry, or the
sentinel `-1` when no entry matches (in particular on an empty registry). -/
def FindTextureSlot (tag : String) (registry : List TEXTURE_ID) : Int :=
  findTextureSlotAux tag registry 0

/-- The loop of `SceneManager::FindMaterial`: scan in insertion order and,
at the first entry whose tag matches, copy its `diffuseColor`,
`specularColor` and `shininess` (but not its `tag`) into the out-parameter
`material`; entries after the first match are not inspected.  Returns the
final value of the out-parameter. -/
def findMaterialLoop (tag : String) : List OBJECT_MATERIAL → OBJECT_MATERIAL → OBJECT_MATERIAL
  | [], material => material
  | e :: rest, material =>
    if e.tag = tag then
      { material with
          diffuseColor := e.diffuseColor
          specularColor := e.specularColor
          shininess := e.shininess }
    else
      findMaterialLoop tag rest material

/-- Embeds `SceneManager::FindMaterial(tag, material&)`.

`material` is the caller's out-parameter (an uninitialized stack value at
the call sites).  The function returns `false` only when the registry is
empty; otherwise it runs the scan loop and returns `true` regardless of
whether any tag matched. -/
def FindMaterial (tag : String) (registry : List OBJECT_MATERIAL)
    (material : OBJECT_MATERIAL) : Bool × OBJECT_MATERIAL :=
  if registry.length = 0 then
    (false, material)
  else
    (true, findMaterialLoop tag registry material)

/-- Embeds `SceneManager::DefineObjectMaterials()`: the five material presets, in
the order they are pushed onto `m_objectMaterials`. -/
def woodMaterial : OBJECT_MATERIAL :=
  { diffuseColor := (0.2, 0.2, 0.3)
    specularColor := (0, 0, 0)
    shininess := 5
    tag := "wood" }

def ceramicMaterial : OBJECT_MATERIAL :=
  { diffuseColor := (0.4, 0.4, 0.4)
    specularColor := (0.2, 0.2, 0.2)
    shininess := 30
    tag := "mug" }

def tackleMaterial : OBJECT_MATERIAL :=
  { diffuseColor := (0.4, 0.4, 0.4)
    specularColor := (0.2, 0.2, 0.2)
    shininess := 15
    tag := "tackleBox" }

def fishMaterial : OBJECT_MATERIAL :=
  { diffuseColor := (0.6, 0.6, 0.6)
    specularColor := (0.3, 0.3, 0.3)
    shininess := 50
    tag := "fish" }

def corkMaterial : OBJECT_MATERIAL :=
  { diffuseColor := (0.8, 0.6, 0.4)
    specularColor := (0.1, 0.1, 0.1)
    shininess := 5
    tag := "cork" }

/-- The material registry as populated by `DefineObjectMaterials` (starting
from the empty vector, as in `PrepareScene`). -/
def DefineObjectMaterials : List OBJECT_MATERIAL :=
  [woodMaterial, ceramicMaterial, tackleMaterial, fishMaterial, corkMaterial]

/-- A `glm::vec3` as an exact real triple `(x, y, z)`. -/
abbrev Vec3 := ℝ × ℝ × ℝ

/-- A `glm::mat4`. -/
abbrev Mat4 := Matrix (Fin 4) (Fin 4) ℝ

/-- Model of `glm::radians`: degrees to radians. -/
noncomputable def radians (degrees : ℝ) : ℝ := degrees * (Real.pi / 180)

/-- Model of `glm::scale(v)`: the non-uniform scaling matrix `diag(x, y, z, 1)`. -/
def glmScale (v : Vec3) : Mat4 :=
  !![v.1, 0, 0, 0;
     0, v.2.1, 0, 0;
     0, 0, v.2.2, 0;
     0, 0, 0, 1]

/-- Model of `glm::translate(v)`: identity with translation in the last column
(column-vector convention). -/
def glmTranslate (v : Vec3) : Mat4 :=
  !![1, 0, 0, v.1;
     0, 1, 0, v.2.1;
     0, 0, 1, v.2.2;
     0, 0, 0, 1]

/-- Model of `glm::rotate(angle, vec3(1,0,0))`: rotation by `angle` radians about the
unit x-axis (column-vector convention). -/
noncomputable def glmRotateX (angle : ℝ) : Mat4 :=
  !![1, 0, 0, 0;
     0, Real.cos angle, -Real.sin angle, 0;
     0, Real.sin angle, Real.cos angle, 0;
     0, 0, 0, 1]

/-- Model of `glm::rotate(angle, vec3(0,1,0))`: rotation by `angle` radians about the
unit y-axis (column-vector convention). -/
noncomputable def glmRotateY (angle : ℝ) : Mat4 :=
  !![Real.cos angle, 0, Real.sin angle, 0;
     0, 1, 0, 0;
     -Real.sin angle, 0, Real.cos angle, 0;
     0, 0, 0, 1]

/-- Model of `glm::rotate(angle, vec3(0,0,1))`: rotation by `angle` radians about the
unit z-axis (column-vector convention). -/
noncomputable def glmRotateZ (angle : ℝ) : Mat4 :=
  !![Real.cos angle, -Real.sin angle, 0, 0;
     Real.sin angle, Real.cos angle, 0, 0;
     0, 0, 1, 0;
     0, 0, 0, 1]

/-- Model of `glm::normalize` on a `vec3`. -/
noncomputable def glmNormalize (v : Vec3) : Vec3 :=
  let len := Real.sqrt (v.1 ^ 2 + v.2.1 ^ 2 + v.2.2 ^ 2)
  (v.1 / len, v.2.1 / len, v.2.2 / len)

/-- The model matrix `modelView` computed inside
`SceneManager::SetTransformations`:
`translation * rotationZ * rotationY * rotationX * scale`, with each
rotation angle converted from degrees to radians. -/
noncomputable def modelViewOf (scaleXYZ : Vec3)
    (XrotationDegrees YrotationDegrees ZrotationDegrees : ℝ)
    (positionXYZ : Vec3) : Mat4 :=
  let scale := glmScale scaleXYZ
  let rotationX := glmRotateX (radians XrotationDegrees)
  let rotationY := glmRotateY (radians YrotationDegrees)
  let rotationZ := glmRotateZ (radians ZrotationDegrees)
  let translation := glmTranslate positionXYZ
  translation * rotationZ * rotationY * rotationX * scale

/-- One call performed through the shading backend pointer
`m_pShaderManager` (one `ShaderManager::set...Value` invocation). -/
inductive UniformCall where
  | setMat4Value (name : String) (value : Mat4)
  | setIntValue (name : String) (value : Int)
  | setBoolValue (name : String) (value : Bool)
  | setFloatValue (name : String) (value : ℝ)
  | setVec2Value (name : String) (value : ℝ × ℝ)
  | setVec3Value (name : String) (value : Vec3)
  | setVec4Value (name : String) (value : ℝ × ℝ × ℝ × ℝ)
  | setSampler2DValue (name : String) (value : Int)

/-- Cast a rational colour triple to the real triple handed to the backend. -/
def castVec3 (v : ℚ × ℚ × ℚ) : Vec3 := ((v.1 : ℝ), (v.2.1 : ℝ), (v.2.2 : ℝ))

/-- Embeds `SceneManager::SetTransformations(scaleXYZ, Xrot, Yrot, Zrot,
positionXYZ)`: composes the model matrix and, only when the backend pointer
is non-null, pushes it to the `"model"` uniform. -/
noncomputable def SetTransformations (scaleXYZ : Vec3)
    (XrotationDegrees YrotationDegrees ZrotationDegrees : ℝ)
    (positionXYZ : Vec3) (shaderPresent : Bool) : List UniformCall :=
  if shaderPresent then
    [.setMat4Value "model"
      (modelViewOf scaleXYZ XrotationDegrees YrotationDegrees
        ZrotationDegrees positionXYZ)]
  else
    []

/-- Embeds `SceneManager::SetShaderColor(r, g, b, a)`: only when the backend
pointer is non-null, disables texture sampling (`bUseTexture = false`, an
`int` 0 on the wire) and sets `objectColor`. -/
def SetShaderColor (redColorValue greenColorValue blueColorValue alphaValue : ℝ)
    (shaderPresent : Bool) : List UniformCall :=
  if shaderPresent then
    [.setIntValue "bUseTexture" 0,
     .setVec4Value "objectColor"
       (redColorValue, greenColorValue, blueColorValue, alphaValue)]
  else
    []

/-- Embeds `SceneManager::SetShaderTexture(textureTag)`: only when the backend
pointer is non-null, enables texture sampling (`bUseTexture = true`, an
`int` 1 on the wire) and sets the `objectTexture` sampler to
`FindTextureSlot(textureTag)` — which is `-1` when the tag is absent. -/
def SetShaderTexture (textureTag : String) (registry : List TEXTURE_ID)
    (shaderPresent : Bool) : List UniformCall :=
  if shaderPresent then
    [.setIntValue "bUseTexture" 1,
     .setSampler2DValue "objectTexture" (FindTextureSlot textureTag registry)]
  else
    []

/-- Embeds `SceneManager::SetTextureUVScale(u, v)`: only when the backend pointer
is non-null, sets the `UVscale` uniform. -/
def SetTextureUVScale (u v : ℝ) (shaderPresent : Bool) : List UniformCall :=
  if shaderPresent then
    [.setVec2Value "UVscale" (u, v)]
  else
    []

/-- Embeds `SceneManager::SetShaderMaterial(materialTag)`.

`material` is the function's uninitialized local `OBJECT_MATERIAL` passed to
`FindMaterial` as the out-parameter.  When the material registry is
non-empty and `FindMaterial` returns `true`, the three `material.*`
uniforms are set through `m_pShaderManager` WITHOUT any null check on the
backend pointer — the `shaderPresent` flag is not consulted anywhere in
this function's body. -/
def SetShaderMaterial (materialTag : String) (registry : List OBJECT_MATERIAL)
    (material : OBJECT_MATERIAL) (shaderPresent : Bool) : List UniformCall :=
  if 0 < registry.length then
    let r := FindMaterial materialTag registry material
    if r.1 = true then
      [.setVec3Value "material.diffuseColor" (castVec3 r.2.diffuseColor),
       .setVec3Value "material.specularColor" (castVec3 r.2.specularColor),
       .setFloatValue "material.shininess" (r.2.shininess : ℝ)]
    else
      []
  else
    []

/-- Embeds `SceneManager::SetupSceneLights()`: enables lighting and configures one
directional light and one point light.  Every call goes through
`m_pShaderManager` WITHOUT any null check — the `shaderPresent` flag is not
consulted anywhere in this function's body. -/
noncomputable def SetupSceneLights (shaderPresent : Bool) : List UniformCall :=
  [.setBoolValue "bUseLighting" true,
   .setVec3Value "directionalLight.direction" (glmNormalize (0.3, -1, 0.5)),
   .setVec3Value "directionalLight.ambient" (0.15, 0.15, 0.15),
   .setVec3Value "directionalLight.diffuse" (1, 0.95, 0.8),
   .setVec3Value "directionalLight.specular" (0.8, 0.8, 0.8),
   .setBoolValue "directionalLight.bActive" true,
   .setVec3Value "pointLights[0].position" (-2, 6, -4),
   .setVec3Value "pointLights[0].ambient" (0.2, 0.2, 0.2),
   .setVec3Value "pointLights[0].diffuse" (1, 0.98, 0.9),
   .setVec3Value "pointLights[0].specular" (0.8, 0.8, 0.8),
   .setFloatValue "pointLights[0].constant" 1,
   .setFloatValue "pointLights[0].linear" 0.045,
   .setFloatValue "pointLights[0].quadratic" 0.0075,
   .setBoolValue "pointLights[0].bActive" true]

/-- The five base shapes of the external `ShapeMeshes` library drawn by
`RenderScene`. -/
inductive ShapeKind where
  | plane
  | cylinder
  | torus
  | box
  | sphere
deriving DecidableEq, Repr

/-- One externally observable event of `RenderScene`: either a backend
uniform call or a `ShapeMeshes::Draw...Mesh` call. -/
inductive Event where
  | uniform (c : UniformCall)
  | draw (s : ShapeKind)

/-- Lift a list of backend uniform calls into the event trace. -/
def uc (calls : List UniformCall) : List Event := calls.map Event.uniform

/-- The mesh-draw calls of an event trace, in order. -/
def drawCalls (trace : List Event) : List ShapeKind :=
  trace.filterMap fun e =>
    match e with
    | .draw s => some s
    | .uniform _ => none

/-- The `eyeletPositions` array of `RenderScene`. -/
def eyeletPositions : List ℝ := [2.5, 4.5, 6.5, 8.5, 10.5]

/-- The `steamOffsets` and `steamHeights` arrays of `RenderScene`, paired
up as the loop indexes them (`steamOffsets[i]`, `steamHeights[i]`). -/
def steamParams : List (ℝ × ℝ) := [(0.1, 2.2), (-0.1, 2.5), (0.0, 2.8)]

/-- Embeds `SceneManager::RenderScene()`: the fixed straight-line scene script, as
the trace of backend uniform calls and mesh draw calls it performs.
`textures` and `materials` are the registries populated by `PrepareScene`,
`material0` the indeterminate value of `SetShaderMaterial`'s uninitialized
local, and `shaderPresent` the nullness flag of `m_pShaderManager`. -/
noncomputable def RenderScene (shaderPresent : Bool)
    (textures : List TEXTURE_ID) (materials : List OBJECT_MATERIAL)
    (material0 : OBJECT_MATERIAL) : List Event :=
  -- the plane (table top)
  uc (SetTransformations (25, 1, 15) 0 0 0 (0, -0.5, 0) shaderPresent) ++
  uc (SetShaderTexture "tableTexture" textures shaderPresent) ++
  uc (SetTextureUVScale 4 3 shaderPresent) ++
  uc (SetShaderMaterial "wood" materials material0 shaderPresent) ++
  [.draw .plane] ++
  -- coffee mug (cylinder)
  uc (SetTransformations (1.2, 2, 1.2) 0 30 0 (4, 0, 0) shaderPresent) ++
  uc (SetShaderColor 1 1 1 1 shaderPresent) ++
  uc (SetShaderTexture "mugTexture" textures shaderPresent) ++
  uc (SetTextureUVScale 1 1 shaderPresent) ++
  uc (SetShaderMaterial "mug" materials material0 shaderPresent) ++
  [.draw .cylinder] ++
  -- torus for mug handle
  uc (SetTransformations (0.5, 0.75, 0.5) 0 0 0 (5.25, 1, 0) shaderPresent) ++
  uc (SetShaderColor 1 1 1 1 shaderPresent) ++
  uc (SetShaderTexture "mugTexture" textures shaderPresent) ++
  uc (SetTextureUVScale 1 1 shaderPresent) ++
  uc (SetShaderMaterial "mug" materials material0 shaderPresent) ++
  [.draw .torus] ++
  -- coffee liquid (cylinder)
  uc (SetTransformations (1.1, 0.1, 1.1) 0 30 0 (4, 1.91, 0) shaderPresent) ++
  uc (SetShaderColor 0.2 0.1 0.05 1 shaderPresent) ++
  [.draw .cylinder] ++
  -- tackle box
  uc (SetTransformations (4, 2, 2.5) 0 15 0 (-4, 1, -1) shaderPresent) ++
  uc (SetShaderColor 1 1 1 1 shaderPresent) ++
  uc (SetShaderTexture "boxTexture" textures shaderPresent) ++
  uc (SetTextureUVScale 1 1 shaderPresent) ++
  uc (SetShaderMaterial "tackleBox" materials material0 shaderPresent) ++
  [.draw .box] ++
  -- fishing rod (cork handle)
  uc (SetTransformations (0.3, 3, 0.3) 0 (-20) 90 (0, 0.15, 2) shaderPresent) ++
  uc (SetShaderColor 1 1 1 1 shaderPresent) ++
  uc (SetShaderTexture "corkTexture" textures shaderPresent) ++
  uc (SetTextureUVScale 1 1 shaderPresent) ++
  uc (SetShaderMaterial "cork" materials material0 shaderPresent) ++
  [.draw .cylinder] ++
  -- rod shaft
  uc (SetTransformations (0.15, 14, 0.15) 0 (-20) 90 (1.25, 0.15, 2) shaderPresent) ++
  uc (SetShaderColor 1 1 1 1 shaderPresent) ++
  uc (SetShaderTexture "rodTexture" textures shaderPresent) ++
  uc (SetTextureUVScale 1 3 shaderPresent) ++
  [.draw .cylinder] ++
  -- fishing reel
  uc (SetTransformations (0.6, 0.2, 0.6) 0 0 0 (0.65, 0.05, 2.75) shaderPresent) ++
  uc (SetShaderColor 1 1 1 1 shaderPresent) ++
  uc (SetShaderTexture "reelTexture" textures shaderPresent) ++
  uc (SetTextureUVScale 1 1 shaderPresent) ++
  uc (SetShaderMaterial "tackleBox" materials material0 shaderPresent) ++
  [.draw .cylinder] ++
  -- side of fishing reel
  uc (SetTransformations (0.3, 0.1, 0.3) 0 0 0 (0.65, 0.2, 2.75) shaderPresent) ++
  uc (SetShaderColor 0.2 0.2 0.2 1 shaderPresent) ++
  uc (SetShaderMaterial "tackleBox" materials material0 shaderPresent) ++
  [.draw .cylinder] ++
  -- fish body (elongated sphere)
  uc (SetTransformations (3, 0.8, 0.4) 270 10 0 (0, -0.4, 6) shaderPresent) ++
  uc (SetShaderColor 1 1 1 1 shaderPresent) ++
  uc (SetShaderTexture "troutTexture" textures shaderPresent) ++
  uc (SetTextureUVScale 2 1 shaderPresent) ++
  uc (SetShaderMaterial "fish" materials material0 shaderPresent) ++
  [.draw .sphere] ++
  -- fish eye
  uc (SetTransformations (0.15, 0.15, 0.05) 270 10 10 (-2.3, -0.2, 6.1) shaderPresent) ++
  uc (SetShaderColor 0.1 0.1 0.1 1 shaderPresent) ++
  [.draw .sphere] ++
  -- fish tail (box shaped into a triangle)
  uc (SetTransformations (0.8, 0.1, 0.8) 0 54 0 (2.95, -0.4, 5.475) shaderPresent) ++
  uc (SetShaderColor 1 1 1 1 shaderPresent) ++
  uc (SetShaderTexture "tailTexture" textures shaderPresent) ++
  uc (SetTextureUVScale 1 1 shaderPresent) ++
  uc (SetShaderMaterial "fish" materials material0 shaderPresent) ++
  [.draw .box] ++
  -- fishing rod eyelets: 5-iteration loop over eyeletPositions
  (eyeletPositions.flatMap fun p =>
    uc (SetTransformations (0.15, 0.15, 0.15) 0 90 0
      (-15 + p * Real.cos (radians (-20)), 0.15,
        2.26 + p * Real.sin (radians 0)) shaderPresent) ++
    uc (SetShaderColor 0.2 0.2 0.2 1 shaderPresent) ++
    uc (SetShaderMaterial "tackleBox" materials material0 shaderPresent) ++
    [.draw .torus]) ++
  -- steam particles: translucent colour set once, then 3-iteration loop
  uc (SetShaderColor 1 1 1 0.3 shaderPresent) ++
  (steamParams.flatMap fun q =>
    uc (SetTransformations (0.2, 0.2, 0.2) 0 0 0
      (4 + q.1, q.2, 0) shaderPresent) ++
    [.draw .sphere])

/-! ## Helper lemmas -/

/-- The slot-scan loop returns `-1` when no entry's tag matches. -/
theorem findTextureSlotAux_eq_neg_one_of_not_mem (tag : String)
    (l : List TEXTURE_ID) (h : ∀ e ∈ l, e.tag ≠ tag) (k : Int) :
    findTextureSlotAux tag l k = -1 := by
  induction l generalizing k with
  | nil => rfl
  | cons e rest ih =>
    have he : e.tag ≠ tag := h e (List.mem_cons_self e rest)
    simp only [findTextureSlotAux, if_neg he]
    exact ih (fun x hx => h x (List.mem_cons_of_mem e hx)) (k + 1)

/-- The lookup `FindTextureSlot` returns the sentinel `-1` when no entry's tag
matches. -/
theorem findTextureSlot_eq_neg_one_of_not_mem (tag : String)
    (l : List TEXTURE_ID) (h : ∀ e ∈ l, e.tag ≠ tag) :
    FindTextureSlot tag l = -1 :=
  findTextureSlotAux_eq_neg_one_of_not_mem tag l h 0

/-- The slot-scan loop started at offset `k` finds the `i`-th entry at
`k + i` when the registry's tags are pairwise distinct. -/
theorem findTextureSlotAux_get (l : List TEXTURE_ID)
    (hnd : (l.map TEXTURE_ID.tag).Nodup) (i : Fin l.length) (k : Int) :
    findTextureSlotAux (l.get i).tag l k = k + (i : ℕ) := by
  induction l generalizing k with
  | nil => exact absurd i.isLt (by simp)
  | cons e rest ih =>
    have hnd' : (rest.map TEXTURE_ID.tag).Nodup := (List.nodup_cons.mp hnd).2
    have hne : e.tag ∉ rest.map TEXTURE_ID.tag := (List.nodup_cons.mp hnd).1
    match i with
    | ⟨0, _⟩ => simp [findTextureSlotAux]
    | ⟨j + 1, hj⟩ =>
      have hjlt : j < rest.length := Nat.lt_of_succ_lt_succ hj
      have hget : ((e :: rest).get ⟨j + 1, hj⟩) = rest.get ⟨j, hjlt⟩ := rfl
      have hmem : (rest.get ⟨j, hjlt⟩).tag ∈ rest.map TEXTURE_ID.tag :=
        List.mem_map_of_mem TEXTURE_ID.tag (rest.get_mem j hjlt)
      have hne' : e.tag ≠ (rest.get ⟨j, hjlt⟩).tag := fun hEq => hne (hEq ▸ hmem)
      rw [hget]
      simp only [findTextureSlotAux, if_neg hne']
      rw [ih hnd' ⟨j, hjlt⟩ (k + 1)]
      push_cast
      ring

/-- The ID scan finds the `i`-th entry's handle when the registry's tags
are pairwise distinct. -/
theorem findTextureID_get (l : List TEXTURE_ID)
    (hnd : (l.map TEXTURE_ID.tag).Nodup) (i : Fin l.length) :
    FindTextureID (l.get i).tag l = (l.get i).ID := by
  induction l with
  | nil => exact absurd i.isLt (by simp)
  | cons e rest ih =>
    have hnd' : (rest.map TEXTURE_ID.tag).Nodup := (List.nodup_cons.mp hnd).2
    have hne : e.tag ∉ rest.map TEXTURE_ID.tag := (List.nodup_cons.mp hnd).1
    match i with
    | ⟨0, _⟩ => simp [FindTextureID]
    | ⟨j + 1, hj⟩ =>
      have hjlt : j < rest.length := Nat.lt_of_succ_lt_succ hj
      have hget : ((e :: rest).get ⟨j + 1, hj⟩) = rest.get ⟨j, hjlt⟩ := rfl
      have hmem : (rest.get ⟨j, hjlt⟩).tag ∈ rest.map TEXTURE_ID.tag :=
        List.mem_map_of_mem TEXTURE_ID.tag (rest.get_mem j hjlt)
      have hne' : e.tag ≠ (rest.get ⟨j, hjlt⟩).tag := fun hEq => hne (hEq ▸ hmem)
      rw [hget]
      simp only [FindTextureID, if_neg hne']
      exact ih hnd' ⟨j, hjlt⟩

/-- The projection `drawCalls` distributes over trace concatenation. -/
theorem drawCalls_append (a b : List Event) :
    drawCalls (a ++ b) = drawCalls a ++ drawCalls b := by
  simp [drawCalls]

/-- Uniform calls contribute no draw calls. -/
theorem drawCalls_uc (l : List UniformCall) : drawCalls (uc l) = [] := by
  simp [drawCalls, uc, List.filterMap_map]

/-- A draw event contributes itself. -/
theorem drawCalls_draw (s : ShapeKind) (t : List Event) :
    drawCalls (Event.draw s :: t) = s :: drawCalls t := by
  simp [drawCalls]

/-- The empty trace has no draw calls. -/
theorem drawCalls_nil : drawCalls [] = [] := rfl

/-! ## Claims -/

/-- C4: for every tag, `FindMaterial` reports not-found (`false`) if and
only if the material registry is empty; on any non-empty registry it
reports found (`true`), even when no entry's tag matches the requested
tag. -/
theorem c4_findMaterial_false_iff_empty (tag : String)
    (registry : List OBJECT_MATERIAL) (material : OBJECT_MATERIAL) :
    (FindMaterial tag registry material).1 = false ↔ registry = [] := by
  unfold FindMaterial
  split <;> simp_all [List.length_eq_zero]

/-- C5: a texture load whose decoded image has a channel count other than
3 or 4 returns failure and leaves the texture registry unchanged (no entry
is appended, so the loaded-texture count does not increase). -/
theorem c5_unsupported_channels_no_append (img : DecodedImage)
    (textureID : Int) (tag : String) (registry : List TEXTURE_ID)
    (h3 : img.colorChannels ≠ 3) (h4 : img.colorChannels ≠ 4) :
    CreateGLTexture (some img) textureID tag registry = (false, registry) := by
  simp [CreateGLTexture, h3, h4]

/-- Witness for C5 at a concrete 2-channel image: the load fails and the
registry (here a one-entry registry) is untouched. -/
theorem c5_witness :
    (({ width := 8, height := 8, colorChannels := 2 } : DecodedImage).colorChannels ≠ 3) ∧
    (({ width := 8, height := 8, colorChannels := 2 } : DecodedImage).colorChannels ≠ 4) ∧
    CreateGLTexture (some { width := 8, height := 8, colorChannels := 2 }) 7 "mugTexture"
      [{ tag := "tableTexture", ID := 3 }] =
      (false, [{ tag := "tableTexture", ID := 3 }]) :=
  ⟨by decide, by decide,
    c5_unsupported_channels_no_append { width := 8, height := 8, colorChannels := 2 }
      7 "mugTexture" [{ tag := "tableTexture", ID := 3 }] (by decide) (by decide)⟩

/-- C6 (amended): on a registry whose tags are pairwise distinct — as after
any sequence of successful loads with distinct tags — `FindTextureSlot` of
the `i`-th entry's tag returns `i` and `FindTextureID` returns that entry's
handle; and on the empty registry both lookups return the sentinel `-1` for
every tag. -/
theorem c6_lookup_insertion_order (l : List TEXTURE_ID)
    (hnd : (l.map TEXTURE_ID.tag).Nodup) (i : Fin l.length) :
    (FindTextureSlot (l.get i).tag l = (i : ℕ)
      ∧ FindTextureID (l.get i).tag l = (l.get i).ID)
    ∧ (∀ tag : String, FindTextureSlot tag [] = -1 ∧ FindTextureID tag [] = -1) := by
  refine ⟨⟨?_, findTextureID_get l hnd i⟩, fun tag => ⟨rfl, rfl⟩⟩
  have h := findTextureSlotAux_get l hnd i 0
  rw [FindTextureSlot, h, zero_add]

/-- Witness for C6 on a concrete two-entry registry with distinct tags:
the second entry ("tableTexture", handle 9) is found at slot 1 with its
own handle. -/
theorem c6_witness :
    (([{ tag := "mugTexture", ID := 7 }, { tag := "tableTexture", ID := 9 }] :
        List TEXTURE_ID).map TEXTURE_ID.tag).Nodup ∧
    ((FindTextureSlot "tableTexture"
        [{ tag := "mugTexture", ID := 7 }, { tag := "tableTexture", ID := 9 }] = 1
      ∧ FindTextureID "tableTexture"
          [{ tag := "mugTexture", ID := 7 }, { tag := "tableTexture", ID := 9 }] = 9)
    ∧ (∀ tag : String, FindTextureSlot tag [] = -1 ∧ FindTextureID tag [] = -1)) :=
  ⟨by decide,
    c6_lookup_insertion_order
      [{ tag := "mugTexture", ID := 7 }, { tag := "tableTexture", ID := 9 }]
      (by decide) ⟨1, by decide⟩⟩

/-- Counterexample to C6 as stated: two successful loads may reuse a tag
(nothing rejects duplicates), and then the lookup of the second loaded
tag returns slot 0 — the first match — not 1. -/
theorem c6_counterexample :
    ((CreateGLTexture (some { width := 8, height := 8, colorChannels := 3 }) 1 "mugTexture" []).1 = true)
    ∧ ((CreateGLTexture (some { width := 8, height := 8, colorChannels := 3 }) 2 "mugTexture"
        (CreateGLTexture (some { width := 8, height := 8, colorChannels := 3 }) 1 "mugTexture" []).2).1 = true)
    ∧ FindTextureSlot "mugTexture"
        (CreateGLTexture (some { width := 8, height := 8, colorChannels := 3 }) 2 "mugTexture"
          (CreateGLTexture (some { width := 8, height := 8, colorChannels := 3 }) 1 "mugTexture" []).2).2 = 0
    ∧ (0 : Int) ≠ 1 := by
  decide

/-- C7: after `DefineObjectMaterials` (which defines "wood" first and "mug"
second), `FindMaterial "mug"` reports found and writes exactly the "mug"
(ceramic) entry's diffuse colour, specular colour and shininess into the
out-parameter — each of which differs from the "wood" entry's value. -/
theorem c7_mug_lookup_exact (material : OBJECT_MATERIAL) :
    ((FindMaterial "mug" DefineObjectMaterials material).1 = true
      ∧ (FindMaterial "mug" DefineObjectMaterials material).2.diffuseColor = ceramicMaterial.diffuseColor
      ∧ (FindMaterial "mug" DefineObjectMaterials material).2.specularColor = ceramicMaterial.specularColor
      ∧ (FindMaterial "mug" DefineObjectMaterials material).2.shininess = ceramicMaterial.shininess)
    ∧ (ceramicMaterial.diffuseColor ≠ woodMaterial.diffuseColor
      ∧ ceramicMaterial.specularColor ≠ woodMaterial.specularColor
      ∧ ceramicMaterial.shininess ≠ woodMaterial.shininess) := by
  refine ⟨?_, by norm_num [ceramicMaterial, woodMaterial],
    by norm_num [ceramicMaterial, woodMaterial],
    by norm_num [ceramicMaterial, woodMaterial]⟩
  simp [FindMaterial, DefineObjectMaterials, findMaterialLoop,
    woodMaterial, ceramicMaterial]

/-- C10: for a tag absent from the texture registry, `SetShaderTexture`
with a non-null backend still enables texture sampling (`bUseTexture` set
to true, integer 1 on the wire) and passes the sentinel `-1` as the
`objectTexture` sampler unit index. -/
theorem c10_missing_tag_sets_sentinel (textureTag : String)
    (registry : List TEXTURE_ID) (h : ∀ e ∈ registry, e.tag ≠ textureTag) :
    SetShaderTexture textureTag registry true =
      [.setIntValue "bUseTexture" 1, .setSampler2DValue "objectTexture" (-1)] := by
  simp [SetShaderTexture, findTextureSlot_eq_neg_one_of_not_mem textureTag registry h]

/-- Witness for C10 at a concrete one-entry registry and an absent tag. -/
theorem c10_witness :
    (∀ e ∈ ([{ tag := "mugTexture", ID := 3 }] : List TEXTURE_ID), e.tag ≠ "steamTexture") ∧
    SetShaderTexture "steamTexture" [{ tag := "mugTexture", ID := 3 }] true =
      [.setIntValue "bUseTexture" 1, .setSampler2DValue "objectTexture" (-1)] :=
  ⟨by decide,
    c10_missing_tag_sets_sentinel "steamTexture" [{ tag := "mugTexture", ID := 3 }] (by decide)⟩

/-- C2 (amended): the four transform/colour/texture/UV setters do skip
their uniform calls when the backend pointer is null. -/
theorem c2_guarded_setters_skip_on_null (scaleXYZ : Vec3)
    (XrotationDegrees YrotationDegrees ZrotationDegrees : ℝ)
    (positionXYZ : Vec3) (r g b a u v : ℝ) (textureTag : String)
    (registry : List TEXTURE_ID) :
    SetTransformations scaleXYZ XrotationDegrees YrotationDegrees
        ZrotationDegrees positionXYZ false = []
    ∧ SetShaderColor r g b a false = []
    ∧ SetShaderTexture textureTag registry false = []
    ∧ SetTextureUVScale u v false = [] :=
  ⟨rfl, rfl, rfl, rfl⟩

/-- Counterexample to C2 as stated: with a null backend pointer,
`SetupSceneLights` still issues its uniform calls (it has no null check),
and so does `SetShaderMaterial` once the material registry is non-empty —
so uniform calls ARE made through the null backend pointer. -/
theorem c2_counterexample :
    SetupSceneLights false ≠ []
    ∧ SetShaderMaterial "wood" DefineObjectMaterials
        { diffuseColor := (0, 0, 0), specularColor := (0, 0, 0),
          shininess := 0, tag := "" } false ≠ [] := by
  constructor
  · simp [SetupSceneLights]
  · simp [SetShaderMaterial, FindMaterial, DefineObjectMaterials,
      findMaterialLoop, woodMaterial]

/-- C3 (amended): each execution of `RenderScene` issues exactly 20 mesh
draw calls, in order: plane, mug body (cylinder), mug handle (torus),
coffee surface (cylinder), tackle box (box), rod handle (cylinder), rod
shaft (cylinder), reel body (cylinder), reel side (cylinder), fish body
(sphere), fish eye (sphere), fish tail (box), 5 rod eyelets (torus) and 3
steam particles (sphere) — whatever the registries, the backend nullness
and the indeterminate local material value. -/
theorem c3_draw_sequence (shaderPresent : Bool) (textures : List TEXTURE_ID)
    (materials : List OBJECT_MATERIAL) (material0 : OBJECT_MATERIAL) :
    drawCalls (RenderScene shaderPresent textures materials material0) =
      [.plane, .cylinder, .torus, .cylinder, .box, .cylinder, .cylinder,
       .cylinder, .cylinder, .sphere, .sphere, .box,
       .torus, .torus, .torus, .torus, .torus,
       .sphere, .sphere, .sphere] := by
  simp [RenderScene, eyeletPositions, steamParams,
    drawCalls_append, drawCalls_uc, drawCalls_draw, drawCalls_nil]

/-- Counterexample to C3 as stated: the render sequence issues 20 mesh
draw calls, not 19 (the claim's own enumeration — twelve single objects
plus 5 eyelets plus 3 steam particles — already totals 20). -/
theorem c3_counterexample :
    (drawCalls (RenderScene true [] []
      { diffuseColor := (0, 0, 0), specularColor := (0, 0, 0),
        shininess := 0, tag := "" })).length = 20
    ∧ (drawCalls (RenderScene true [] []
      { diffuseColor := (0, 0, 0), specularColor := (0, 0, 0),
        shininess := 0, tag := "" })).length ≠ 19 := by
  constructor
  · simp [RenderScene, eyeletPositions, steamParams,
      drawCalls_append, drawCalls_uc, drawCalls_draw, drawCalls_nil]
  · simp [RenderScene, eyeletPositions, steamParams,
      drawCalls_append, drawCalls_uc, drawCalls_draw, drawCalls_nil]

/-- Converting 0 degrees gives 0 radians. -/
theorem radians_zero : radians 0 = 0 := by
  simp [radians]

/-- Converting 90 degrees gives a right angle in radians. -/
theorem radians_ninety : radians 90 = Real.pi / 2 := by
  rw [radians]; ring

/-- Scaling by `(1,1,1)` is the identity matrix. -/
theorem glmScale_one : glmScale (1, 1, 1) = 1 := by
  ext i j
  fin_cases i <;> fin_cases j <;> simp [glmScale, Matrix.one_apply, Matrix.vecHead, Matrix.vecTail]

/-- Translating by `(0,0,0)` is the identity matrix. -/
theorem glmTranslate_zero : glmTranslate (0, 0, 0) = 1 := by
  ext i j
  fin_cases i <;> fin_cases j <;> simp [glmTranslate, Matrix.one_apply, Matrix.vecHead, Matrix.vecTail]

/-- Rotating by angle `0` about the x-axis is the identity matrix. -/
theorem glmRotateX_zero : glmRotateX 0 = 1 := by
  ext i j
  fin_cases i <;> fin_cases j <;>
    simp [glmRotateX, Matrix.one_apply, Real.cos_zero, Real.sin_zero,
      Matrix.vecHead, Matrix.vecTail]

/-- Rotating by angle `0` about the y-axis is the identity matrix. -/
theorem glmRotateY_zero : glmRotateY 0 = 1 := by
  ext i j
  fin_cases i <;> fin_cases j <;>
    simp [glmRotateY, Matrix.one_apply, Real.cos_zero, Real.sin_zero,
      Matrix.vecHead, Matrix.vecTail]

/-- Rotating by angle `0` about the z-axis is the identity matrix. -/
theorem glmRotateZ_zero : glmRotateZ 0 = 1 := by
  ext i j
  fin_cases i <;> fin_cases j <;>
    simp [glmRotateZ, Matrix.one_apply, Real.cos_zero, Real.sin_zero,
      Matrix.vecHead, Matrix.vecTail]

/-- The y-rotation by a right angle, entrywise. -/
theorem glmRotateY_half_pi :
    glmRotateY (Real.pi / 2) =
      !![0, 0, 1, 0;
         0, 1, 0, 0;
         -1, 0, 0, 0;
         0, 0, 0, 1] := by
  simp [glmRotateY, Real.cos_pi_div_two, Real.sin_pi_div_two]

/-- C1: `SetTransformations` with a non-null backend pushes to the
`"model"` uniform exactly the matrix
`Translate(T) * RotateZ(Zdeg) * RotateY(Ydeg) * RotateX(Xdeg) * Scale(S)`,
with the angles converted from degrees — and nothing else. -/
theorem c1_compose_order (scaleXYZ : Vec3)
    (XrotationDegrees YrotationDegrees ZrotationDegrees : ℝ)
    (positionXYZ : Vec3) :
    SetTransformations scaleXYZ XrotationDegrees YrotationDegrees
        ZrotationDegrees positionXYZ true =
      [.setMat4Value "model"
        (glmTranslate positionXYZ
          * glmRotateZ (radians ZrotationDegrees)
          * glmRotateY (radians YrotationDegrees)
          * glmRotateX (radians XrotationDegrees)
          * glmScale scaleXYZ)] := rfl

/-- C8: the composed model matrix at the identity inputs — scale
`(1,1,1)`, all rotations `0` degrees, translation `(0,0,0)` — is the 4×4
identity matrix. -/
theorem c8_identity_inputs : modelViewOf (1, 1, 1) 0 0 0 (0, 0, 0) = 1 := by
  simp only [modelViewOf, radians_zero, glmRotateX_zero, glmRotateY_zero,
    glmRotateZ_zero, glmScale_one, glmTranslate_zero, mul_one, one_mul]

/-- C9: the composed model matrix with scale `(2,1,1)`, y-rotation 90
degrees, x- and z-rotations 0 and translation `(3,0,0)` maps the
homogeneous local-space point `(1,0,0,1)` to the world-space point
`(3,0,-2,1)`. -/
theorem c9_maps_unit_x : (modelViewOf (2, 1, 1) 0 90 0 (3, 0, 0)).mulVec
    ![1, 0, 0, 1] = ![3, 0, -2, 1] := by
  have hM : modelViewOf (2, 1, 1) 0 90 0 (3, 0, 0) =
      glmTranslate (3, 0, 0)
        * !![0, 0, 1, 0; 0, 1, 0, 0; -1, 0, 0, 0; 0, 0, 0, 1]
        * glmScale (2, 1, 1) := by
    simp only [modelViewOf, radians_zero, radians_ninety, glmRotateX_zero,
      glmRotateZ_zero, glmRotateY_half_pi, mul_one, one_mul]
  have hS : (glmScale (2, 1, 1)).mulVec ![1, 0, 0, 1] = ![2, 0, 0, 1] := by
    funext i
    fin_cases i <;>
      simp [glmScale, Matrix.mulVec, Matrix.dotProduct, Fin.sum_univ_four]
  have hR : (!![0, 0, 1, 0; 0, 1, 0, 0; -1, 0, 0, 0; 0, 0, 0, 1] :
      Mat4).mulVec ![2, 0, 0, 1] = ![0, 0, -2, 1] := by
    funext i
    fin_cases i <;>
      simp [Matrix.mulVec, Matrix.dotProduct, Fin.sum_univ_four]
  have hT : (glmTranslate (3, 0, 0)).mulVec ![0, 0, -2, 1] = ![3, 0, -2, 1] := by
    funext i
    fin_cases i <;>
      simp [glmTranslate, Matrix.mulVec, Matrix.dotProduct, Fin.sum_univ_four]
  rw [hM, ← Matrix.mulVec_mulVec, ← Matrix.mulVec_mulVec, hS, hR, hT]
